import Mathlib

/-!
Verification of the Bubble_Risk_China scripts.

The numeric code of the repository is embedded shallowly over `ℚ`:
Python floats become rationals, `np.mean` becomes sum/length, Python's
raising float division is modelled separately with `Option` where a claim
is about error behaviour, and Python dicts of category names become
association lists.
-/

namespace BubbleRisk

/-! ## Embedding of src/code/calculate_china_oct2025_real.py -/

/-- Normalize to percentile [0,1] (module function `percentile_normalize`,
lines 80-86).  `pct = (value - hist_min) / (hist_max - hist_min)`, clamped to
[0,1] by `max(0, min(1, pct))`, then negated from 1 when `invert` is set.
Division over `ℚ` is total (x / 0 = 0); the raising behaviour of Python's
division is modelled by `percentile_normalizeChecked` below. -/
def percentile_normalize (value hist_min hist_max : ℚ) (invert : Bool) : ℚ :=
  let pct := (value - hist_min) / (hist_max - hist_min)
  let pct := max 0 (min 1 pct)
  if invert then 1 - pct else pct

/-- The same function with Python's error behaviour made explicit: the
division `(value - hist_min) / (hist_max - hist_min)` raises
`ZeroDivisionError` exactly when the denominator is zero, so the result is
`none` in that case and `some` of the normal result otherwise. -/
def percentile_normalizeChecked (value hist_min hist_max : ℚ) (invert : Bool) :
    Option ℚ :=
  if hist_max - hist_min = 0 then none
  else
    let pct := (value - hist_min) / (hist_max - hist_min)
    let pct := max 0 (min 1 pct)
    some (if invert then 1 - pct else pct)

/-- `np.mean` of a list of rationals: sum divided by length. -/
def npMean (xs : List ℚ) : ℚ := xs.sum / (xs.length : ℚ)

-- Raw market data constants of calculate_china_oct2025_real.py (lines 20-54).
def YTD_return : ℚ := 0.357
def PE_Ratio : ℚ := 15.5
def PB_Ratio : ℚ := 1.6
def CAPE : ℚ := 14.2
def Dividend_Yield : ℚ := 0.028
def Market_Cap_GDP : ℚ := 1.058
def GDP_Growth : ℚ := 4.5
def CPI : ℚ := 0.0
def PMI : ℚ := 51.2
def Total_Debt_GDP : ℚ := 2.85
def TSF_Growth : ℚ := 0.092
def Credit_Impulse : ℚ := 0.023
def RSI : ℚ := 68
def Volatility : ℚ := 28
def Margin_Balance : ℚ := 1800
def Retail_Participation : ℚ := 0.82
def Foreign_Ownership : ℚ := 0.045
def Northbound_Flow_YTD : ℚ := 380

-- Layer 1 metric risks (lines 94-198).
def PE_risk : ℚ := percentile_normalize PE_Ratio 10 40 false
def CAPE_risk : ℚ := percentile_normalize CAPE 10 35 false
def PB_risk : ℚ := percentile_normalize PB_Ratio 1.0 5.0 false
def MCGDP_risk : ℚ := percentile_normalize Market_Cap_GDP 0.40 1.40 false
def Div_risk : ℚ := percentile_normalize Dividend_Yield 0.015 0.040 true
def Price_momentum_risk : ℚ := percentile_normalize YTD_return (-0.30) 0.60 false
def RSI_risk : ℚ := percentile_normalize RSI 30 80 false
def Vol_risk : ℚ := percentile_normalize Volatility 15 45 false
def Margin_risk : ℚ := percentile_normalize Margin_Balance 800 2500 false
def Debt_risk : ℚ := percentile_normalize Total_Debt_GDP 2.00 3.50 false
def Credit_growth_risk : ℚ := percentile_normalize TSF_Growth 0.05 0.15 false
def Credit_impulse_risk : ℚ := percentile_normalize Credit_Impulse (-0.05) 0.05 false
def GDP_risk : ℚ := percentile_normalize GDP_Growth 2.0 8.0 true

/-- The inflation metric (line 168) is the one risk not built from
`percentile_normalize`: `Inflation_risk = abs(CPI - 0.02) / 0.05 * 0.7`,
written here as a function of the CPI input. -/
def inflationRiskOf (cpi : ℚ) : ℚ := |cpi - 0.02| / 0.05 * 0.7

def Inflation_risk : ℚ := inflationRiskOf CPI

def PMI_risk : ℚ := percentile_normalize PMI 45 55 true
def Unemp_risk : ℚ := percentile_normalize 5.0 4.0 8.0 false
def Retail_risk : ℚ := percentile_normalize Retail_Participation 0.60 0.90 false
def Foreign_risk : ℚ := percentile_normalize Northbound_Flow_YTD (-200) 500 false
def Ownership_risk : ℚ := percentile_normalize Foreign_Ownership 0.02 0.10 false

-- Layer 2 category scores: np.mean of the category risks, times 100.
def VALUATION_SCORE : ℚ :=
  npMean [PE_risk, CAPE_risk, PB_risk, MCGDP_risk, Div_risk] * 100
def MOMENTUM_SCORE : ℚ :=
  npMean [Price_momentum_risk, RSI_risk, Vol_risk, Margin_risk] * 100
def CREDIT_SCORE : ℚ :=
  npMean [Debt_risk, Credit_growth_risk, Credit_impulse_risk] * 100
def ECONOMY_SCORE : ℚ :=
  npMean [GDP_risk, Inflation_risk, PMI_risk, Unemp_risk] * 100
def SENTIMENT_SCORE : ℚ :=
  npMean [Retail_risk, Foreign_risk, Ownership_risk] * 100

-- Layer 3 weights (lines 209-213).
def W_VALUATION : ℚ := 0.25
def W_MOMENTUM : ℚ := 0.20
def W_CREDIT : ℚ := 0.20
def W_ECONOMY : ℚ := 0.15
def W_SENTIMENT : ℚ := 0.20

-- Contributions and composite score (lines 216-223).
def CONTRIB_VAL : ℚ := VALUATION_SCORE * W_VALUATION
def CONTRIB_MOM : ℚ := MOMENTUM_SCORE * W_MOMENTUM
def CONTRIB_CRE : ℚ := CREDIT_SCORE * W_CREDIT
def CONTRIB_ECO : ℚ := ECONOMY_SCORE * W_ECONOMY
def CONTRIB_SEN : ℚ := SENTIMENT_SCORE * W_SENTIMENT

def COMPOSITE_BUBBLE_SCORE : ℚ :=
  CONTRIB_VAL + CONTRIB_MOM + CONTRIB_CRE + CONTRIB_ECO + CONTRIB_SEN

/-- The risk classification if/elif chain (lines 236-247), as a function of
the score it branches on. -/
def riskLevel (score : ℚ) : String :=
  if score < 20 then "Minimal Risk"
  else if score < 35 then "Low-Moderate Risk"
  else if score < 50 then "Moderate Risk"
  else if score < 65 then "Elevated Risk"
  else if score < 80 then "High Risk"
  else "Extreme Risk"

def risk_level : String := riskLevel COMPOSITE_BUBBLE_SCORE

/-! ## Embedding of src/code/generate_robustness_checks.py -/

/-- Python dicts keyed by category name become association lists; `d[k]`
becomes a lookup (all lookups in the script hit existing keys). -/
def dictGet (d : List (String × ℚ)) (k : String) : ℚ :=
  ((d.find? (fun kv => kv.1 == k)).map Prod.snd).getD 0

/-- Python 3 `round` to an integer: round half to even. -/
def roundHalfEven (x : ℚ) : ℤ :=
  let n := Int.floor x
  let frac := x - (n : ℚ)
  if frac < 1/2 then n
  else if 1/2 < frac then n + 1
  else if n % 2 = 0 then n else n + 1

/-- Python `round(x, 2)`. -/
def round2 (x : ℚ) : ℚ := (roundHalfEven (x * 100) : ℚ) / 100

/-- `calculate_bubble_score(components, weights)` (lines 31-34):
`round(sum(components[k] * weights[k] for k in components.keys()), 2)`. -/
def calculate_bubble_score (components weights : List (String × ℚ)) : ℚ :=
  round2 ((components.map (fun kv => kv.2 * dictGet weights kv.1)).sum)

def base_components : List (String × ℚ) :=
  [("Valuation", 35), ("Momentum", 60), ("Credit", 30),
   ("Economy", 20), ("Sentiment", 35)]

def base_weights : List (String × ℚ) :=
  [("Valuation", 0.25), ("Momentum", 0.20), ("Credit", 0.20),
   ("Economy", 0.15), ("Sentiment", 0.20)]

/-- `{k: 0.20 for k in base_weights.keys()}`. -/
def equal_weights : List (String × ℚ) :=
  [("Valuation", 0.20), ("Momentum", 0.20), ("Credit", 0.20),
   ("Economy", 0.20), ("Sentiment", 0.20)]

/-- Lines 48-53: the "Without Economy" weights. -/
def no_economy_weights : List (String × ℚ) :=
  [("Valuation", 0.294), ("Momentum", 0.235), ("Credit", 0.235),
   ("Sentiment", 0.235)]

/-- Lines 82-88: the "Higher Valuation Weight" specification. -/
def higher_val_weights : List (String × ℚ) :=
  [("Valuation", 0.30), ("Momentum", 0.175), ("Credit", 0.175),
   ("Economy", 0.15), ("Sentiment", 0.20)]

/-- The five weight constants of calculate_china_oct2025_real.py gathered as
a list, in source order. -/
def china_weights : List ℚ :=
  [W_VALUATION, W_MOMENTUM, W_CREDIT, W_ECONOMY, W_SENTIMENT]

def weightValues (d : List (String × ℚ)) : List ℚ := d.map Prod.snd

/-! ## Embedding of src/code/generate_statistical_validation.py -/

-- The out-of-sample summary block (lines 133-139): literal constants.
def dbn_mae : ℚ := 1.95
def naive_mae : ℚ := 14.3
def oos_improvement : ℚ := 85.9
def dbn_rmse : ℚ := 2.08
def naive_rmse : ℚ := 19.72

-- Per-period errors stored alongside the summary (lines 99-132).
def dbn_errors : List ℚ := [2.3, 1.7, 2.5, 1.3]
def naive_errors : List ℚ := [23.8, 4.6, 28.4, 0.4]

-- The Granger F-statistics of lines 16-37, likewise literal constants.
def granger_F : List ℚ := [8.42, 12.68, 15.34, 9.87]

/-! ## Embedding of key_formulas.calculate_composite_bubble_score -/

/-- `weights = np.array(weights) / sum(weights)` (line 176). -/
def normalizeWeights (weights : List ℚ) : List ℚ :=
  weights.map (fun w => w / weights.sum)

/-- Lines 179-182: the weighted sum over category columns.  The dataframe is
a partial map from column names to time series; a category absent from the
columns contributes nothing (the `if category in df.columns` guard). -/
def compositeBubbleScore (df : String → Option (ℕ → ℚ))
    (category_scores : List String) (weights : List ℚ) (t : ℕ) : ℚ :=
  ((category_scores.zip (normalizeWeights weights)).map
    (fun cw =>
      match df cw.1 with
      | some col => col t * cw.2
      | none => 0)).sum

/-- `pd.cut(composite_score, bins=[-inf, 0.3, 0.5, 0.7, inf], labels=...)`
(lines 188-192); pandas bins are right-closed by default, so the intervals
are (-inf, 0.3], (0.3, 0.5], (0.5, 0.7], (0.7, inf). -/
def bubbleRiskLevelCut (score : ℚ) : String :=
  if score ≤ 0.3 then "Low"
  else if score ≤ 0.5 then "Medium"
  else if score ≤ 0.7 then "High"
  else "Critical"

end BubbleRisk

namespace BubbleRisk

/-! ## Helper lemmas -/

lemma clamp01_nonneg (p : ℚ) : 0 ≤ max 0 (min 1 p) := le_max_left 0 _

lemma clamp01_le_one (p : ℚ) : max 0 (min 1 p) ≤ 1 :=
  max_le zero_le_one (min_le_left 1 p)

lemma percentile_normalize_nonneg (v lo hi : ℚ) (inv : Bool) :
    0 ≤ percentile_normalize v lo hi inv := by
  cases inv
  · exact clamp01_nonneg _
  · show 0 ≤ 1 - max 0 (min 1 ((v - lo) / (hi - lo)))
    have := clamp01_le_one ((v - lo) / (hi - lo))
    linarith

lemma percentile_normalize_le_one (v lo hi : ℚ) (inv : Bool) :
    percentile_normalize v lo hi inv ≤ 1 := by
  cases inv
  · exact clamp01_le_one _
  · show 1 - max 0 (min 1 ((v - lo) / (hi - lo))) ≤ 1
    have := clamp01_nonneg ((v - lo) / (hi - lo))
    linarith

/-- The inflation formula of line 168, seen as a function of the CPI value, is
not extensionally equal to `percentile_normalize` for any fixed range and
invert flag: `percentile_normalize` is clamped to [0,1], while the inflation
formula exceeds 1 at CPI = 10. -/
lemma inflationRiskOf_not_percentile :
    ¬ ∃ (lo hi : ℚ) (inv : Bool), ∀ cpi : ℚ,
        inflationRiskOf cpi = percentile_normalize cpi lo hi inv := by
  rintro ⟨lo, hi, inv, h⟩
  have h10 := h 10
  have hle := percentile_normalize_le_one 10 lo hi inv
  rw [← h10] at hle
  rw [inflationRiskOf, abs_of_nonneg (by norm_num : (0:ℚ) ≤ 10 - 0.02)] at hle
  norm_num at hle

/-! ## Claims -/

/-- Claim C1: for any fixed range with `hist_min < hist_max`,
`percentile_normalize(v, hist_min, hist_max, invert=False)` equals
`clamp((v - hist_min) / (hist_max - hist_min), 0, 1)`; hence it always lies in
[0,1] (also for v outside the range), equals 0 at `v = hist_min` and 1 at
`v = hist_max`; and `invert=True` yields 1 minus the `invert=False` result. -/
theorem percentile_normalize_spec (v lo hi : ℚ) (h : lo < hi) :
    percentile_normalize v lo hi false = max 0 (min 1 ((v - lo) / (hi - lo)))
    ∧ 0 ≤ percentile_normalize v lo hi false
    ∧ percentile_normalize v lo hi false ≤ 1
    ∧ percentile_normalize lo lo hi false = 0
    ∧ percentile_normalize hi lo hi false = 1
    ∧ percentile_normalize v lo hi true = 1 - percentile_normalize v lo hi false := by
  refine ⟨rfl, percentile_normalize_nonneg v lo hi false,
    percentile_normalize_le_one v lo hi false, ?_, ?_, rfl⟩
  · simp [percentile_normalize]
  · have hne : hi - lo ≠ 0 := sub_ne_zero.mpr (ne_of_gt h)
    simp [percentile_normalize, div_self hne]

/-- Witness for C1 at v = 3, range [0, 10]. -/
theorem percentile_normalize_spec_witness :
    (0:ℚ) < 10
    ∧ (percentile_normalize 3 0 10 false = max 0 (min 1 ((3 - 0) / (10 - 0)))
      ∧ 0 ≤ percentile_normalize 3 0 10 false
      ∧ percentile_normalize 3 0 10 false ≤ 1
      ∧ percentile_normalize 0 0 10 false = 0
      ∧ percentile_normalize 10 0 10 false = 1
      ∧ percentile_normalize 3 0 10 true = 1 - percentile_normalize 3 0 10 false) :=
  ⟨by norm_num, percentile_normalize_spec 3 0 10 (by norm_num)⟩

/-- Claim C2: the composite bubble score is the weighted sum of the five
category scores; the risk label is assigned by the fixed cutoffs 20 / 35 /
50 / 65 / 80; and whenever each category score lies in [0,100] and the
weights are nonnegative and sum to 1, the weighted sum lies in [0,100]. -/
theorem composite_score_spec :
    COMPOSITE_BUBBLE_SCORE =
        VALUATION_SCORE * W_VALUATION + MOMENTUM_SCORE * W_MOMENTUM +
        CREDIT_SCORE * W_CREDIT + ECONOMY_SCORE * W_ECONOMY +
        SENTIMENT_SCORE * W_SENTIMENT
    ∧ (∀ x : ℚ,
        (x < 20 → riskLevel x = "Minimal Risk")
        ∧ (20 ≤ x → x < 35 → riskLevel x = "Low-Moderate Risk")
        ∧ (35 ≤ x → x < 50 → riskLevel x = "Moderate Risk")
        ∧ (50 ≤ x → x < 65 → riskLevel x = "Elevated Risk")
        ∧ (65 ≤ x → x < 80 → riskLevel x = "High Risk")
        ∧ (80 ≤ x → riskLevel x = "Extreme Risk"))
    ∧ (∀ v m c e s wv wm wc we ws : ℚ,
        0 ≤ v → v ≤ 100 → 0 ≤ m → m ≤ 100 → 0 ≤ c → c ≤ 100 →
        0 ≤ e → e ≤ 100 → 0 ≤ s → s ≤ 100 →
        0 ≤ wv → 0 ≤ wm → 0 ≤ wc → 0 ≤ we → 0 ≤ ws →
        wv + wm + wc + we + ws = 1 →
        0 ≤ v * wv + m * wm + c * wc + e * we + s * ws
        ∧ v * wv + m * wm + c * wc + e * we + s * ws ≤ 100) := by
  refine ⟨rfl, ?_, ?_⟩
  · intro x
    refine ⟨?_, ?_, ?_, ?_, ?_, ?_⟩
    · intro h1; simp [riskLevel, h1]
    · intro h1 h2; simp [riskLevel, not_lt.mpr h1, h2]
    · intro h1 h2
      simp [riskLevel, not_lt.mpr (by linarith : (20:ℚ) ≤ x), not_lt.mpr h1, h2]
    · intro h1 h2
      simp [riskLevel, not_lt.mpr (by linarith : (20:ℚ) ≤ x),
        not_lt.mpr (by linarith : (35:ℚ) ≤ x), not_lt.mpr h1, h2]
    · intro h1 h2
      simp [riskLevel, not_lt.mpr (by linarith : (20:ℚ) ≤ x),
        not_lt.mpr (by linarith : (35:ℚ) ≤ x),
        not_lt.mpr (by linarith : (50:ℚ) ≤ x), not_lt.mpr h1, h2]
    · intro h1
      simp [riskLevel, not_lt.mpr (by linarith : (20:ℚ) ≤ x),
        not_lt.mpr (by linarith : (35:ℚ) ≤ x),
        not_lt.mpr (by linarith : (50:ℚ) ≤ x),
        not_lt.mpr (by linarith : (65:ℚ) ≤ x), not_lt.mpr h1]
  · intro v m c e s wv wm wc we ws hv0 hv1 hm0 hm1 hc0 hc1 he0 he1 hs0 hs1
      hwv hwm hwc hwe hws hsum
    constructor
    · have p1 := mul_nonneg hv0 hwv
      have p2 := mul_nonneg hm0 hwm
      have p3 := mul_nonneg hc0 hwc
      have p4 := mul_nonneg he0 hwe
      have p5 := mul_nonneg hs0 hws
      linarith
    · have q1 := mul_le_mul_of_nonneg_right hv1 hwv
      have q2 := mul_le_mul_of_nonneg_right hm1 hwm
      have q3 := mul_le_mul_of_nonneg_right hc1 hwc
      have q4 := mul_le_mul_of_nonneg_right he1 hwe
      have q5 := mul_le_mul_of_nonneg_right hs1 hws
      nlinarith [hsum]

/-- Witness for C2: label lookup at 10, and the [0,100] bound at all category
scores 50 with the paper's weights. -/
theorem composite_score_spec_witness :
    ((10:ℚ) < 20 ∧ riskLevel 10 = "Minimal Risk")
    ∧ (0 ≤ (50:ℚ) * 0.25 + 50 * 0.20 + 50 * 0.20 + 50 * 0.15 + 50 * 0.20
       ∧ (50:ℚ) * 0.25 + 50 * 0.20 + 50 * 0.20 + 50 * 0.15 + 50 * 0.20 ≤ 100) := by
  refine ⟨⟨by norm_num, (composite_score_spec.2.1 10).1 (by norm_num)⟩, ?_⟩
  exact composite_score_spec.2.2 50 50 50 50 50 0.25 0.20 0.20 0.15 0.20
    (by norm_num) (by norm_num) (by norm_num) (by norm_num) (by norm_num)
    (by norm_num) (by norm_num) (by norm_num) (by norm_num) (by norm_num)
    (by norm_num) (by norm_num) (by norm_num) (by norm_num) (by norm_num)
    (by norm_num)

/-- Counterexample to claim C3: the "Without Economy" weights of the
robustness script sum to 0.999, so `abs(sum(weights) - 1) < 1e-9` fails for
that weight collection. -/
theorem no_economy_weights_sum_violation :
    (weightValues no_economy_weights).sum = 0.999
    ∧ ¬ |(weightValues no_economy_weights).sum - 1| < 1 / 10 ^ 9 := by
  have hsum : (weightValues no_economy_weights).sum = 0.999 := by
    norm_num [weightValues, no_economy_weights]
  refine ⟨hsum, ?_⟩
  rw [hsum, show (0.999 : ℚ) - 1 = -(0.001) by norm_num, abs_neg,
    abs_of_nonneg (by norm_num : (0:ℚ) ≤ 0.001)]
  norm_num

/-- Claim C3 as amended: every weight used by the scripts lies in [0,1]; the
China weights and the baseline, equal-weight and higher-valuation
specifications of the robustness script each sum exactly to 1, but the
"Without Economy" specification sums to 0.999. -/
theorem script_weight_sums :
    china_weights.sum = 1
    ∧ (weightValues base_weights).sum = 1
    ∧ (weightValues equal_weights).sum = 1
    ∧ (weightValues higher_val_weights).sum = 1
    ∧ (weightValues no_economy_weights).sum = 0.999
    ∧ ((china_weights ++ weightValues base_weights ++ weightValues equal_weights
        ++ weightValues higher_val_weights ++ weightValues no_economy_weights).all
        (fun w => decide (0 ≤ w) && decide (w ≤ 1))) = true := by
  refine ⟨?_, ?_, ?_, ?_, ?_, ?_⟩
  · norm_num [china_weights, W_VALUATION, W_MOMENTUM, W_CREDIT, W_ECONOMY,
      W_SENTIMENT]
  · norm_num [weightValues, base_weights]
  · norm_num [weightValues, equal_weights]
  · norm_num [weightValues, higher_val_weights]
  · norm_num [weightValues, no_economy_weights]
  · norm_num [china_weights, weightValues, base_weights, equal_weights,
      higher_val_weights, no_economy_weights, W_VALUATION, W_MOMENTUM, W_CREDIT,
      W_ECONOMY, W_SENTIMENT, List.all_cons, List.all_nil, decide_eq_true_eq]

/-- Claim C4: on the base components {35, 60, 30, 20, 35} with weights
{0.25, 0.20, 0.20, 0.15, 0.20}, `calculate_bubble_score` returns exactly
36.75, and the risk classifier labels that score "Moderate Risk". -/
theorem baseline_score_spec :
    calculate_bubble_score base_components base_weights = 36.75
    ∧ riskLevel (calculate_bubble_score base_components base_weights) =
        "Moderate Risk" := by
  have h : calculate_bubble_score base_components base_weights = 36.75 := by
    simp only [calculate_bubble_score, base_components, base_weights, dictGet,
      List.find?, List.map, List.sum_cons, List.sum_nil, String.reduceBEq,
      Option.map_some, Option.getD_some]
    norm_num [round2, roundHalfEven]
  refine ⟨h, ?_⟩
  rw [h]
  norm_num [riskLevel]

/-- Claim C5: each of the five category scores is the unweighted arithmetic
mean of its list of metric risk values, multiplied by 100. -/
theorem category_scores_are_means :
    VALUATION_SCORE = (PE_risk + CAPE_risk + PB_risk + MCGDP_risk + Div_risk) / 5 * 100
    ∧ MOMENTUM_SCORE = (Price_momentum_risk + RSI_risk + Vol_risk + Margin_risk) / 4 * 100
    ∧ CREDIT_SCORE = (Debt_risk + Credit_growth_risk + Credit_impulse_risk) / 3 * 100
    ∧ ECONOMY_SCORE = (GDP_risk + Inflation_risk + PMI_risk + Unemp_risk) / 4 * 100
    ∧ SENTIMENT_SCORE = (Retail_risk + Foreign_risk + Ownership_risk) / 3 * 100 := by
  refine ⟨?_, ?_, ?_, ?_, ?_⟩ <;>
    simp [VALUATION_SCORE, MOMENTUM_SCORE, CREDIT_SCORE, ECONOMY_SCORE,
      SENTIMENT_SCORE, npMean] <;> ring

/-- Counterexample to claim C6: the inflation risk metric is not produced by
`percentile_normalize`: no fixed range and invert flag make
`percentile_normalize` agree with the formula
`abs(CPI - 0.02) / 0.05 * 0.7` as a function of the CPI value. -/
theorem inflation_risk_breaks_sole_mechanism :
    ¬ ∃ (lo hi : ℚ) (inv : Bool), ∀ cpi : ℚ,
        inflationRiskOf cpi = percentile_normalize cpi lo hi inv :=
  inflationRiskOf_not_percentile

/-- Claim C6 as amended: every metric risk feeding a category mean except
`Inflation_risk` is produced by `percentile_normalize` with its literal range
(and invert flag); `Inflation_risk` alone is computed by the distinct formula
`abs(CPI - 0.02) / 0.05 * 0.7`, which no parameterisation of
`percentile_normalize` reproduces. -/
theorem metric_risk_formulas :
    PE_risk = percentile_normalize PE_Ratio 10 40 false
    ∧ CAPE_risk = percentile_normalize CAPE 10 35 false
    ∧ PB_risk = percentile_normalize PB_Ratio 1.0 5.0 false
    ∧ MCGDP_risk = percentile_normalize Market_Cap_GDP 0.40 1.40 false
    ∧ Div_risk = percentile_normalize Dividend_Yield 0.015 0.040 true
    ∧ Price_momentum_risk = percentile_normalize YTD_return (-0.30) 0.60 false
    ∧ RSI_risk = percentile_normalize RSI 30 80 false
    ∧ Vol_risk = percentile_normalize Volatility 15 45 false
    ∧ Margin_risk = percentile_normalize Margin_Balance 800 2500 false
    ∧ Debt_risk = percentile_normalize Total_Debt_GDP 2.00 3.50 false
    ∧ Credit_growth_risk = percentile_normalize TSF_Growth 0.05 0.15 false
    ∧ Credit_impulse_risk = percentile_normalize Credit_Impulse (-0.05) 0.05 false
    ∧ GDP_risk = percentile_normalize GDP_Growth 2.0 8.0 true
    ∧ PMI_risk = percentile_normalize PMI 45 55 true
    ∧ Unemp_risk = percentile_normalize 5.0 4.0 8.0 false
    ∧ Retail_risk = percentile_normalize Retail_Participation 0.60 0.90 false
    ∧ Foreign_risk = percentile_normalize Northbound_Flow_YTD (-200) 500 false
    ∧ Ownership_risk = percentile_normalize Foreign_Ownership 0.02 0.10 false
    ∧ Inflation_risk = |CPI - 0.02| / 0.05 * 0.7
    ∧ ¬ ∃ (lo hi : ℚ) (inv : Bool), ∀ cpi : ℚ,
        inflationRiskOf cpi = percentile_normalize cpi lo hi inv :=
  ⟨rfl, rfl, rfl, rfl, rfl, rfl, rfl, rfl, rfl, rfl, rfl, rfl, rfl, rfl, rfl,
    rfl, rfl, rfl, rfl, inflationRiskOf_not_percentile⟩

/-- Claim C7: each classifier resolves a score lying exactly on a threshold to
one fixed side of its own convention: in the China script a score equal to a
cutoff (20, 35, 50, 65, 80) starts the next (higher) bucket, while in the
pd.cut bucketing of key_formulas (right-closed bins with edges 0.3, 0.5, 0.7)
a score equal to a bin edge stays in the bucket whose upper bound it is. -/
theorem threshold_boundary_spec :
    riskLevel 20 = "Low-Moderate Risk"
    ∧ riskLevel 35 = "Moderate Risk"
    ∧ riskLevel 50 = "Elevated Risk"
    ∧ riskLevel 65 = "High Risk"
    ∧ riskLevel 80 = "Extreme Risk"
    ∧ bubbleRiskLevelCut 0.3 = "Low"
    ∧ bubbleRiskLevelCut 0.5 = "Medium"
    ∧ bubbleRiskLevelCut 0.7 = "High"
    ∧ (∀ x : ℚ,
        (x ≤ 0.3 → bubbleRiskLevelCut x = "Low")
        ∧ (0.3 < x → x ≤ 0.5 → bubbleRiskLevelCut x = "Medium")
        ∧ (0.5 < x → x ≤ 0.7 → bubbleRiskLevelCut x = "High")
        ∧ (0.7 < x → bubbleRiskLevelCut x = "Critical")) := by
  refine ⟨by norm_num [riskLevel], by norm_num [riskLevel], by norm_num [riskLevel],
    by norm_num [riskLevel], by norm_num [riskLevel],
    by norm_num [bubbleRiskLevelCut], by norm_num [bubbleRiskLevelCut],
    by norm_num [bubbleRiskLevelCut], ?_⟩
  intro x
  refine ⟨?_, ?_, ?_, ?_⟩
  · intro h1; simp [bubbleRiskLevelCut, h1]
  · intro h1 h2; simp [bubbleRiskLevelCut, not_le.mpr h1, h2]
  · intro h1 h2
    simp [bubbleRiskLevelCut, not_le.mpr (by linarith : (0.3:ℚ) < x),
      not_le.mpr h1, h2]
  · intro h1
    simp [bubbleRiskLevelCut, not_le.mpr (by linarith : (0.3:ℚ) < x),
      not_le.mpr (by linarith : (0.5:ℚ) < x), not_le.mpr h1]

/-- Witness for C7: the interval facts of the pd.cut bucketing at 0.4. -/
theorem threshold_boundary_spec_witness :
    (0.3:ℚ) < 0.4 ∧ (0.4:ℚ) ≤ 0.5 ∧ bubbleRiskLevelCut 0.4 = "Medium" :=
  ⟨by norm_num, by norm_num,
    (threshold_boundary_spec.2.2.2.2.2.2.2.2 0.4).2.1 (by norm_num) (by norm_num)⟩

/-- Claim C8: `percentile_normalize` hits an uncaught division by zero exactly
when `hist_min = hist_max`; on a range of nonzero width it always returns a
value (the one computed by the total embedding). -/
theorem percentile_normalize_error_spec :
    ∀ (v lo hi : ℚ) (inv : Bool),
      (percentile_normalizeChecked v lo hi inv = none ↔ lo = hi)
      ∧ (lo ≠ hi →
          percentile_normalizeChecked v lo hi inv =
            some (percentile_normalize v lo hi inv)) := by
  intro v lo hi inv
  by_cases h : hi - lo = 0
  · have hlo : lo = hi := (sub_eq_zero.mp h).symm
    constructor
    · simp [percentile_normalizeChecked, h, hlo]
    · intro hne; exact absurd hlo hne
  · have hne : lo ≠ hi := fun he => h (by rw [he, sub_self])
    constructor
    · simp [percentile_normalizeChecked, h, hne]
    · intro _
      simp [percentile_normalizeChecked, h, percentile_normalize]

/-- Witness for C8 at v = 3, range [0, 10]. -/
theorem percentile_normalize_error_spec_witness :
    (0:ℚ) ≠ 10
    ∧ percentile_normalizeChecked 3 0 10 false =
        some (percentile_normalize 3 0 10 false) :=
  ⟨by norm_num, (percentile_normalize_error_spec 3 0 10 false).2 (by norm_num)⟩

/-- Claim C9: the statistical-validation record consists of literal constants;
in particular the out-of-sample summary field `improvement` is the literal
85.9, which differs from `(naive_mae - dbn_mae) / naive_mae * 100`, the
formula it is annotated as being derived from. -/
theorem oos_summary_literals :
    dbn_mae = 1.95 ∧ naive_mae = 14.3 ∧ oos_improvement = 85.9
    ∧ dbn_rmse = 2.08 ∧ naive_rmse = 19.72
    ∧ granger_F = [8.42, 12.68, 15.34, 9.87]
    ∧ npMean dbn_errors = dbn_mae
    ∧ npMean naive_errors = naive_mae
    ∧ (naive_mae - dbn_mae) / naive_mae * 100 ≠ oos_improvement := by
  refine ⟨rfl, rfl, rfl, rfl, rfl, rfl, ?_, ?_, ?_⟩
  · norm_num [npMean, dbn_errors, dbn_mae]
  · norm_num [npMean, naive_errors, naive_mae]
  · norm_num [naive_mae, dbn_mae, oos_improvement]

/-- Example dataframe used to witness the scale-invariance theorem: one
column holding the constant series 0.4. -/
def dfEx : String → Option (ℕ → ℚ) :=
  fun name => if name = "Valuation_risk" then some (fun _ => 0.4) else none

/-- Claim C10: `calculate_composite_bubble_score` renormalises the supplied
weights by their sum, so scaling every weight by a positive constant leaves
the composite score series, and hence the derived risk labels, unchanged. -/
theorem composite_weight_scale_invariant :
    ∀ (df : String → Option (ℕ → ℚ)) (category_scores : List String)
      (weights : List ℚ) (c : ℚ), 0 < c →
      compositeBubbleScore df category_scores (weights.map (fun w => c * w))
          = compositeBubbleScore df category_scores weights
      ∧ ∀ t, bubbleRiskLevelCut
            (compositeBubbleScore df category_scores
              (weights.map (fun w => c * w)) t)
          = bubbleRiskLevelCut
              (compositeBubbleScore df category_scores weights t) := by
  intro df cats ws c hc
  have hne : c ≠ 0 := ne_of_gt hc
  have hsum : (ws.map (fun w => c * w)).sum = c * ws.sum := by
    induction ws with
    | nil => simp
    | cons a l ih => simp [ih, mul_add]
  have hnw : normalizeWeights (ws.map (fun w => c * w)) = normalizeWeights ws := by
    unfold normalizeWeights
    rw [hsum, List.map_map]
    have hfn : ((fun w => w / (c * ws.sum)) ∘ (fun w => c * w)) =
        (fun w : ℚ => w / ws.sum) := by
      funext w
      simp only [Function.comp]
      exact mul_div_mul_left w ws.sum hne
    rw [hfn]
  have hfun : compositeBubbleScore df cats (ws.map (fun w => c * w)) =
      compositeBubbleScore df cats ws := by
    funext t
    simp only [compositeBubbleScore, hnw]
  exact ⟨hfun, fun t => by rw [hfun]⟩

/-- Witness for C10: scaling the single weight by 3 over the example
dataframe. -/
theorem composite_weight_scale_invariant_witness :
    (0:ℚ) < 3
    ∧ compositeBubbleScore dfEx ["Valuation_risk"]
        (List.map (fun w => (3:ℚ) * w) [2]) =
      compositeBubbleScore dfEx ["Valuation_risk"] [2]
    ∧ bubbleRiskLevelCut
        (compositeBubbleScore dfEx ["Valuation_risk"]
          (List.map (fun w => (3:ℚ) * w) [2]) 0) =
      bubbleRiskLevelCut (compositeBubbleScore dfEx ["Valuation_risk"] [2] 0) := by
  refine ⟨by norm_num, ?_, ?_⟩
  · exact (composite_weight_scale_invariant dfEx ["Valuation_risk"] [2] 3
      (by norm_num)).1
  · exact (composite_weight_scale_invariant dfEx ["Valuation_risk"] [2] 3
      (by norm_num)).2 0

end BubbleRisk
